import Mathlib

/-!
Verification of the Environmental Health Scoring Engine of the
AI-Powered-Agricultural-Robot repository.

The two components with decision logic are shallowly embedded here:

* `SoilAnalyzer` (src/src/soil_analyzer.py): classification of soil-sensor
  values against per-parameter thresholds and generation of corrective
  recommendations.  Python floats are modelled as exact rationals, the
  reading dictionary as an association list in insertion order, and the
  nested recommendation dictionaries as an `Option`-valued lookup table
  (the dictionary has no entry for the `optimal` band, so a lookup there
  is a failure, modelled by `none`).

* `ImageProcessor` (src/utils/image_processing.py): vegetation detection
  by HSV thresholding and the weighted plant-health score.  An image is a
  list of RGB pixels (spatial layout is irrelevant to the per-pixel mask
  and the scalar reductions); the OpenCV 8-bit RGB-to-HSV conversion is
  modelled with integer arithmetic (hue stored halved in 0..179, floor
  division standing in for OpenCV fixed-point rounding); `numpy`'s NaN
  from the mean of an empty selection is modelled by `Option.none`.
-/

namespace AgriRobot

/-- The four condition bands returned by `SoilAnalyzer._evaluate_condition`. -/
inductive Condition where
  | low
  | high
  | optimal
  | suboptimal
deriving DecidableEq

/-- The six soil parameters recognized by the threshold table of
`SoilAnalyzer.__init__`. -/
inductive Param where
  | moisture
  | ph
  | nitrogen
  | phosphorus
  | potassium
  | temperature
deriving DecidableEq

/-- One row of the threshold table: `{"min": ..., "max": ..., "optimal": ...}`. -/
structure Threshold where
  min : ℚ
  max : ℚ
  optimal : ℚ

/-- The static threshold table assigned in `SoilAnalyzer.__init__`. -/
def thresholds : Param → Threshold
  | .moisture => ⟨20, 80, 50⟩
  | .ph => ⟨5.5, 7.5, 6.5⟩
  | .nitrogen => ⟨0, 100, 60⟩
  | .phosphorus => ⟨0, 100, 45⟩
  | .potassium => ⟨0, 100, 50⟩
  | .temperature => ⟨10, 35, 25⟩

/-- `SoilAnalyzer._evaluate_condition(value, thresholds)`: the four
branches in source order. -/
def evaluateCondition (value : ℚ) (t : Threshold) : Condition :=
  if value < t.min then .low
  else if value > t.max then .high
  else if |value - t.optimal| ≤ (t.max - t.min) * 0.1 then .optimal
  else .suboptimal

/-- The nested `recommendations` dictionary of
`SoilAnalyzer._generate_recommendation`.  The inner dictionaries hold the
three non-optimal bands only; a lookup at `optimal` has no entry, hence
`none`. -/
def recommendationAction : Param → Condition → Option String
  | .moisture, .low => some "Increase irrigation frequency"
  | .moisture, .high => some "Reduce irrigation and improve drainage"
  | .moisture, .suboptimal => some "Adjust irrigation schedule"
  | .ph, .low => some "Apply lime to increase pH"
  | .ph, .high => some "Apply sulfur to decrease pH"
  | .ph, .suboptimal => some "Monitor pH levels"
  | .nitrogen, .low => some "Apply nitrogen-rich fertilizer"
  | .nitrogen, .high => some "Reduce nitrogen application"
  | .nitrogen, .suboptimal => some "Adjust nitrogen levels gradually"
  | .phosphorus, .low => some "Apply phosphate fertilizer"
  | .phosphorus, .high => some "Reduce phosphorus application"
  | .phosphorus, .suboptimal => some "Monitor phosphorus levels"
  | .potassium, .low => some "Apply potassium-rich fertilizer"
  | .potassium, .high => some "Reduce potassium application"
  | .potassium, .suboptimal => some "Adjust potassium levels"
  | .temperature, .low => some "Consider soil warming techniques"
  | .temperature, .high => some "Apply mulch for temperature regulation"
  | .temperature, .suboptimal => some "Monitor soil temperature"
  | _, .optimal => none

/-- The record built by `SoilAnalyzer._generate_recommendation`. -/
structure Recommendation where
  parameter : Param
  current_value : ℚ
  condition : Condition
  action : String
deriving DecidableEq

/-- `SoilAnalyzer._generate_recommendation(parameter, value, condition)`:
builds the record from the dictionary lookup; the lookup fails (the code
raises a `KeyError`) exactly when the table has no entry, which the
`Option` records. -/
def generateRecommendation (parameter : Param) (value : ℚ)
    (condition : Condition) : Option Recommendation :=
  (recommendationAction parameter condition).map
    (fun a => ⟨parameter, value, condition, a⟩)

/-- A soil reading: the `timestamp` entry plus the remaining items of the
dictionary in insertion order.  A reading may lack parameters. -/
structure Reading where
  timestamp : String
  params : List (Param × ℚ)

/-- The analysis record built by `SoilAnalyzer._analyze_reading`. -/
structure Analysis where
  timestamp : String
  conditions : List (Param × Condition)
  recommendations : List Recommendation
deriving DecidableEq

/-- `SoilAnalyzer._analyze_reading(reading)` with the threshold table
abstracted: iterate over the reading's items (the `timestamp` entry is
skipped, here factored into `Reading.params`), classify each value,
record the condition, and append a recommendation when the condition is
not optimal.  `analyzeStep` is one iteration of that loop. -/
def analyzeStep (th : Param → Threshold)
    (acc : List (Param × Condition) × List Recommendation)
    (pv : Param × ℚ) : List (Param × Condition) × List Recommendation :=
  let condition := evaluateCondition pv.2 (th pv.1)
  ( acc.1 ++ [(pv.1, condition)],
    if condition ≠ Condition.optimal then
      acc.2 ++ (generateRecommendation pv.1 pv.2 condition).toList
    else acc.2 )

def analyzeReadingWith (th : Param → Threshold) (reading : Reading) : Analysis :=
  let res := reading.params.foldl (analyzeStep th) ([], [])
  ⟨reading.timestamp, res.1, res.2⟩

/-- `_analyze_reading` with the instance's threshold table. -/
def analyzeReading (reading : Reading) : Analysis :=
  analyzeReadingWith thresholds reading

/-- A complete reading: all six recognized parameters, in the insertion
order of `_simulate_sensor_reading`. -/
def completeReading (ts : String) (m ph n phos k temp : ℚ) : Reading :=
  ⟨ts, [(.moisture, m), (.ph, ph), (.nitrogen, n), (.phosphorus, phos),
        (.potassium, k), (.temperature, temp)]⟩

/-- Mutable state of a `SoilAnalyzer` instance: the threshold table (set
in `__init__`, never reassigned) and `latest_reading` (reassigned by
`analyze_soil`). -/
structure AnalyzerState where
  thresholds : Param → Threshold
  latest_reading : Option Reading

/-- One evaluation call as the orchestrating `analyze_soil` performs it:
analyze the reading with the instance's thresholds and update
`latest_reading`. -/
def evaluateCall (s : AnalyzerState) (reading : Reading) :
    Analysis × AnalyzerState :=
  (analyzeReadingWith s.thresholds reading, ⟨s.thresholds, some reading⟩)

/-- An RGB pixel, each channel an 8-bit value (0..255). -/
structure RGB where
  r : ℕ
  g : ℕ
  b : ℕ
deriving DecidableEq

/-- An HSV pixel as OpenCV stores 8-bit HSV: hue halved (0..179),
saturation and value 0..255. -/
structure HSV where
  h : ℕ
  s : ℕ
  v : ℕ
deriving DecidableEq

/-- `cv2.cvtColor(image, cv2.COLOR_RGB2HSV)` on one 8-bit pixel.
`V = max(r,g,b)`, `S = 255 * (V - min) / V` (0 when `V = 0`), hue in
degrees from the dominant channel (plus 360 when negative), stored
halved; floor division models OpenCV fixed-point rounding. -/
def rgbToHsv (p : RGB) : HSV :=
  let v := max p.r (max p.g p.b)
  let m := min p.r (min p.g p.b)
  let d := v - m
  let s := if v = 0 then 0 else 255 * d / v
  let hDeg : ℤ :=
    if d = 0 then 0
    else if v = p.r then 60 * ((p.g : ℤ) - (p.b : ℤ)) / (d : ℤ)
    else if v = p.g then 120 + 60 * ((p.b : ℤ) - (p.r : ℤ)) / (d : ℤ)
    else 240 + 60 * ((p.r : ℤ) - (p.g : ℤ)) / (d : ℤ)
  let hPos : ℤ := if hDeg < 0 then hDeg + 360 else hDeg
  ⟨(hPos / 2).toNat, s, v⟩

/-- An image: its pixels.  Spatial layout is irrelevant to the per-pixel
mask and to the scalar reductions of `analyze_plant_health`. -/
abbrev Image := List RGB

/-- The `cv2.inRange(hsv, [35, 30, 30], [85, 255, 255])` test on one HSV
pixel: inclusive bounds on every channel. -/
def inGreenRange (q : HSV) : Bool :=
  decide (35 ≤ q.h) && decide (q.h ≤ 85) && decide (30 ≤ q.s) &&
  decide (q.s ≤ 255) && decide (30 ≤ q.v) && decide (q.v ≤ 255)

/-- `ImageProcessor.detect_vegetation(image_array)`: convert to HSV and
apply `inRange`; a mask entry is `true` where the source mask holds 255. -/
def detectVegetation (image : Image) : List Bool :=
  (image.map rgbToHsv).map inGreenRange

/-- The metrics dictionary of `ImageProcessor.analyze_plant_health`.
`average_saturation` is `none` when `numpy` would produce NaN (mean of an
empty selection); the NaN propagates into `health_score`. -/
structure HealthMetrics where
  vegetation_coverage : ℚ
  average_saturation : Option ℚ
  health_score : Option ℚ
deriving DecidableEq

/-- `ImageProcessor.analyze_plant_health(image_array)`: coverage is the
share of mask pixels over the mask size, average saturation the mean of
the saturation channel restricted to mask pixels, and the health score
`(0.6 * coverage/100 + 0.4 * avg_saturation/255) * 100`. -/
def analyzePlantHealth (image : Image) : HealthMetrics :=
  let hsv := image.map rgbToHsv
  let mask := detectVegetation image
  let coverage : ℚ := ((mask.count true : ℚ) / (mask.length : ℚ)) * 100
  let sats : List ℚ :=
    (hsv.zip mask).filterMap (fun qm => if qm.2 then some (qm.1.s : ℚ) else none)
  let avg : Option ℚ :=
    if sats.length = 0 then none else some (sats.sum / (sats.length : ℚ))
  { vegetation_coverage := coverage
    average_saturation := avg
    health_score := avg.map (fun a => (0.6 * (coverage / 100) + 0.4 * (a / 255)) * 100) }

/-! Proof-side helper definitions: closed forms of the analysis loop and
the declarative statements of the spec, to be compared with the embedded
code above. -/

/-- The condition entry the analysis loop records for one reading item. -/
def condOf (th : Param → Threshold) (pv : Param × ℚ) : Param × Condition :=
  (pv.1, evaluateCondition pv.2 (th pv.1))

/-- The recommendation (if any) the analysis loop appends for one reading
item: none exactly when the condition is optimal. -/
def recOf (th : Param → Threshold) (pv : Param × ℚ) : Option Recommendation :=
  let condition := evaluateCondition pv.2 (th pv.1)
  if condition = Condition.optimal then none
  else generateRecommendation pv.1 pv.2 condition

/-- Modelled from the spec: the declarative region of each condition band
(rules 1-4 of the classification algorithm read as set descriptions
rather than as an ordered cascade). -/
def bandRegion (t : Threshold) (v : ℚ) : Condition → Prop
  | .low => v < t.min
  | .high => v > t.max
  | .optimal => t.min ≤ v ∧ v ≤ t.max ∧ |v - t.optimal| ≤ 0.1 * (t.max - t.min)
  | .suboptimal => t.min ≤ v ∧ v ≤ t.max ∧ ¬ |v - t.optimal| ≤ 0.1 * (t.max - t.min)

/-- Number of pixels the vegetation mask classifies as vegetation. -/
def vegCount (image : Image) : ℕ := (detectVegetation image).count true

/-- The saturation channel restricted to the vegetation pixels. -/
def vegSaturations (image : Image) : List ℚ :=
  ((image.map rgbToHsv).filter inGreenRange).map (fun q => (q.s : ℚ))

/-- A reading that lacks the `moisture` parameter but carries the other
five at their optimal points. -/
def readingMissingMoisture : Reading :=
  ⟨"2024-01-01T00:00:00", [(.ph, 6.5), (.nitrogen, 60), (.phosphorus, 45),
    (.potassium, 50), (.temperature, 25)]⟩

/-- A four-pixel all-black image: its vegetation mask selects no pixel. -/
def blackImage : Image := [⟨0, 0, 0⟩, ⟨0, 0, 0⟩, ⟨0, 0, 0⟩, ⟨0, 0, 0⟩]

/-- A pure-green pixel (hue 120 degrees, full saturation and value). -/
def greenPixel : RGB := ⟨0, 255, 0⟩

/-- A two-pixel image, one pure-green pixel and one black pixel. -/
def imgGreenBlack : Image := [greenPixel, ⟨0, 0, 0⟩]

/-- A two-pixel image of pure-green pixels. -/
def imgGreenGreen : Image := [greenPixel, greenPixel]

/-! Helper lemmas about the analysis loop. -/

theorem foldl_analyzeStep (th : Param → Threshold) (ps : List (Param × ℚ))
    (a : List (Param × Condition)) (b : List Recommendation) :
    ps.foldl (analyzeStep th) (a, b) =
      (a ++ ps.map (condOf th), b ++ ps.filterMap (recOf th)) := by
  induction ps generalizing a b with
  | nil => simp
  | cons p ps ih =>
    simp only [List.foldl_cons, List.map_cons, List.filterMap_cons]
    rw [ih]
    unfold analyzeStep condOf recOf
    by_cases h : evaluateCondition p.2 (th p.1) = Condition.optimal
    · simp [h]
    · cases hr : generateRecommendation p.1 p.2 (evaluateCondition p.2 (th p.1)) <;>
        simp [h, hr]

theorem analyzeReadingWith_conditions (th : Param → Threshold) (r : Reading) :
    (analyzeReadingWith th r).conditions = r.params.map (condOf th) := by
  simp [analyzeReadingWith, foldl_analyzeStep]

theorem analyzeReadingWith_recommendations (th : Param → Threshold) (r : Reading) :
    (analyzeReadingWith th r).recommendations = r.params.filterMap (recOf th) := by
  simp [analyzeReadingWith, foldl_analyzeStep]

theorem recommendationAction_isSome (p : Param) (c : Condition)
    (h : c ≠ Condition.optimal) : (recommendationAction p c).isSome := by
  cases p <;> cases c <;> simp_all [recommendationAction]

theorem recOf_eq_some {th : Param → Threshold} {pv : Param × ℚ}
    {rec : Recommendation} (h : recOf th pv = some rec) :
    rec.parameter = pv.1 ∧ rec.current_value = pv.2 ∧
      rec.condition = evaluateCondition pv.2 (th pv.1) := by
  unfold recOf at h
  by_cases hc : evaluateCondition pv.2 (th pv.1) = Condition.optimal
  · simp [hc] at h
  · simp only [hc, if_false, generateRecommendation, Option.map_eq_some'] at h
    obtain ⟨a, _, ha⟩ := h
    subst ha
    exact ⟨rfl, rfl, rfl⟩

theorem recOf_eq_none {th : Param → Threshold} {pv : Param × ℚ} :
    recOf th pv = none ↔
      evaluateCondition pv.2 (th pv.1) = Condition.optimal := by
  constructor
  · intro h
    by_contra hc
    have hs := recommendationAction_isSome pv.1 _ hc
    unfold recOf generateRecommendation at h
    simp only [hc, if_false, Option.map_eq_none'] at h
    simp [h] at hs
  · intro h
    simp [recOf, h]

theorem parameter_mem_of_mem_filterMap {th : Param → Threshold}
    {ps : List (Param × ℚ)} {rec : Recommendation}
    (h : rec ∈ ps.filterMap (recOf th)) : rec.parameter ∈ ps.map Prod.fst := by
  obtain ⟨pv, hpv, hr⟩ := List.mem_filterMap.mp h
  have := (recOf_eq_some hr).1
  rw [this]
  exact List.mem_map_of_mem _ hpv

theorem countP_filterMap_recOf (th : Param → Threshold) (ps : List (Param × ℚ))
    (pv : Param × ℚ) (hnd : (ps.map Prod.fst).Nodup) (hmem : pv ∈ ps) :
    (ps.filterMap (recOf th)).countP (fun rec => decide (rec.parameter = pv.1)) =
      if evaluateCondition pv.2 (th pv.1) = Condition.optimal then 0 else 1 := by
  induction ps with
  | nil => cases hmem
  | cons q ps ih =>
    simp only [List.map_cons, List.nodup_cons] at hnd
    obtain ⟨hq, hnd2⟩ := hnd
    rcases List.mem_cons.mp hmem with hpv | hpv
    · subst hpv
      have hzero : (ps.filterMap (recOf th)).countP
          (fun rec => decide (rec.parameter = pv.1)) = 0 := by
        rw [List.countP_eq_zero]
        intro rec hrec
        have hp := parameter_mem_of_mem_filterMap hrec
        simp only [decide_eq_true_eq]
        intro hcontra
        rw [hcontra] at hp
        exact hq hp
      rw [List.filterMap_cons]
      cases hr : recOf th pv with
      | none =>
        rw [recOf_eq_none.mp hr, if_pos rfl]
        exact hzero
      | some rec =>
        have hne : evaluateCondition pv.2 (th pv.1) ≠ Condition.optimal := by
          intro hc
          rw [recOf_eq_none.mpr hc] at hr
          cases hr
        rw [if_neg hne, List.countP_cons, hzero]
        have := (recOf_eq_some hr).1
        simp [this]
    · have hne : q.1 ≠ pv.1 := by
        intro hc
        exact hq (hc ▸ List.mem_map_of_mem _ hpv)
      rw [List.filterMap_cons]
      cases hr : recOf th q with
      | none => exact ih hnd2 hpv
      | some rec =>
        rw [List.countP_cons]
        have hpar := (recOf_eq_some hr).1
        have hfalse : (decide (rec.parameter = pv.1)) = false := by
          simp [hpar, hne]
        rw [hfalse, if_neg (by simp)]
        simpa using ih hnd2 hpv

/-- Concrete evaluation of `_analyze_reading` on the reading of §8 of the
spec: moisture 5, the other five parameters at their optimal points. -/
theorem lowMoisture_eval :
    analyzeReading (completeReading "2024-01-01T00:00:00" 5 6.5 60 45 50 25) =
      ⟨"2024-01-01T00:00:00",
       [(.moisture, .low), (.ph, .optimal), (.nitrogen, .optimal),
        (.phosphorus, .optimal), (.potassium, .optimal), (.temperature, .optimal)],
       [⟨.moisture, 5, .low, "Increase irrigation frequency"⟩]⟩ := by
  norm_num [analyzeReading, analyzeReadingWith, analyzeStep, completeReading,
    evaluateCondition, thresholds, generateRecommendation, recommendationAction, Ne]
  decide

/-! Helper lemmas about the image pipeline. -/

theorem filterMap_zip_map {α β : Type} (l : List α) (f : α → Bool) (g : α → β) :
    (l.zip (l.map f)).filterMap (fun x => if x.2 then some (g x.1) else none) =
      (l.filter f).map g := by
  induction l with
  | nil => simp
  | cons a l ih => cases hfa : f a <;> simp [hfa, ih]

theorem count_true_map {α : Type} (l : List α) (f : α → Bool) :
    (l.map f).count true = (l.filter f).length := by
  induction l with
  | nil => simp
  | cons a l ih => cases hfa : f a <;> simp [hfa, ih, List.count_cons]

theorem vegSaturations_length (image : Image) :
    (vegSaturations image).length = vegCount image := by
  rw [vegSaturations, vegCount, detectVegetation, count_true_map]
  simp

/-- The health score field is the stated function of the other two
metrics fields. -/
theorem healthScore_eq (image : Image) :
    (analyzePlantHealth image).health_score =
      (analyzePlantHealth image).average_saturation.map
        (fun a => (0.6 * ((analyzePlantHealth image).vegetation_coverage / 100) +
          0.4 * (a / 255)) * 100) := rfl

/-- The 8-bit saturation channel never exceeds 255. -/
theorem rgbToHsv_s_le (p : RGB) : (rgbToHsv p).s ≤ 255 := by
  have hval : (rgbToHsv p).s = if max p.r (max p.g p.b) = 0 then 0 else
      255 * (max p.r (max p.g p.b) - min p.r (min p.g p.b)) /
        max p.r (max p.g p.b) := rfl
  rw [hval]
  split_ifs with hv
  · exact Nat.zero_le _
  · refine Nat.div_le_of_le_mul ?_
    calc 255 * (max p.r (max p.g p.b) - min p.r (min p.g p.b)) ≤
        255 * max p.r (max p.g p.b) :=
          Nat.mul_le_mul_left 255 (Nat.sub_le _ _)
      _ = max p.r (max p.g p.b) * 255 := Nat.mul_comm _ _

/-- The value channel of a valid 8-bit pixel never exceeds 255. -/
theorem rgbToHsv_v_le (p : RGB) (hr : p.r ≤ 255) (hg : p.g ≤ 255)
    (hb : p.b ≤ 255) : (rgbToHsv p).v ≤ 255 := by
  have hval : (rgbToHsv p).v = max p.r (max p.g p.b) := rfl
  rw [hval]
  exact max_le hr (max_le hg hb)

/-- On channels bounded by 255 the two upper `inRange` bounds are
vacuous, so the test reduces to the hue window and the two lower
thresholds. -/
theorem inGreenRange_iff (q : HSV) (hs : q.s ≤ 255) (hv : q.v ≤ 255) :
    inGreenRange q = true ↔
      (35 ≤ q.h ∧ q.h ≤ 85 ∧ 30 ≤ q.s ∧ 30 ≤ q.v) := by
  simp [inGreenRange, hs, hv]
  tauto

/-- Concrete evaluation of `analyze_plant_health` on the two-pixel
green-and-black image. -/
theorem greenBlack_eval :
    analyzePlantHealth imgGreenBlack = ⟨50, some 255, some 70⟩ := by
  norm_num [analyzePlantHealth, imgGreenBlack, greenPixel, detectVegetation,
    rgbToHsv, inGreenRange, List.filterMap_cons, List.filterMap_nil]

/-- Concrete evaluation of `analyze_plant_health` on the two-pixel
all-green image. -/
theorem greenGreen_eval :
    analyzePlantHealth imgGreenGreen = ⟨100, some 255, some 100⟩ := by
  norm_num [analyzePlantHealth, imgGreenGreen, greenPixel, detectVegetation,
    rgbToHsv, inGreenRange, List.filterMap_cons, List.filterMap_nil]

/-! The claims. -/

/-- C1: for every value and threshold record, the condition band is the
one computed by the four rules applied in source order: `low` exactly
when the value is below `min`; `high` exactly when rule 1 failed and the
value is above `max`; `optimal` exactly when rules 1-2 failed and the
value is within a tenth of the operating range of the optimal point;
`suboptimal` exactly when all three earlier rules failed. -/
theorem evaluateCondition_rules (v : ℚ) (t : Threshold) :
    (evaluateCondition v t = Condition.low ↔ v < t.min) ∧
    (evaluateCondition v t = Condition.high ↔ ¬ v < t.min ∧ v > t.max) ∧
    (evaluateCondition v t = Condition.optimal ↔
      ¬ v < t.min ∧ ¬ v > t.max ∧ |v - t.optimal| ≤ 0.1 * (t.max - t.min)) ∧
    (evaluateCondition v t = Condition.suboptimal ↔
      ¬ v < t.min ∧ ¬ v > t.max ∧ ¬ |v - t.optimal| ≤ 0.1 * (t.max - t.min)) := by
  unfold evaluateCondition
  split_ifs with h1 h2 h3 <;> simp_all [mul_comm]

/-- C2: on an all-black image the vegetation mask selects zero pixels,
yet `analyze_plant_health` still returns a metrics record; its average
saturation is the mean of an empty selection (`numpy` NaN, modelled by
`none`), which propagates into the health score.  No explicit
`EmptyVegetationError` is raised, contradicting the claim. -/
theorem analyzePlantHealth_blackImage_nan :
    vegCount blackImage = 0 ∧
    analyzePlantHealth blackImage =
      { vegetation_coverage := 0, average_saturation := none,
        health_score := none } := by
  constructor
  · simp [vegCount, blackImage, detectVegetation, rgbToHsv, inGreenRange]
  · simp [analyzePlantHealth, blackImage, detectVegetation, rgbToHsv, inGreenRange]

/-- C3: whenever at least one pixel is classified as vegetation, the
returned metrics are exactly: coverage is 100 times the vegetation pixel
count over the total pixel count; average saturation is the mean of the
saturation channel over the vegetation pixels only; and the health score
is `100 * (0.6 * coverage/100 + 0.4 * average_saturation/255)`. -/
theorem analyzePlantHealth_formulas (image : Image) (h : 0 < vegCount image) :
    (analyzePlantHealth image).vegetation_coverage =
      100 * ((vegCount image : ℚ) / (image.length : ℚ)) ∧
    (analyzePlantHealth image).average_saturation =
      some ((vegSaturations image).sum / (vegCount image : ℚ)) ∧
    (analyzePlantHealth image).health_score =
      some (100 * (0.6 * ((analyzePlantHealth image).vegetation_coverage / 100) +
        0.4 * (((vegSaturations image).sum / (vegCount image : ℚ)) / 255))) := by
  have hsats : ((image.map rgbToHsv).zip (detectVegetation image)).filterMap
      (fun qm => if qm.2 then some ((qm.1.s : ℚ)) else none) =
        (vegSaturations image) := by
    rw [vegSaturations, detectVegetation]
    exact filterMap_zip_map (image.map rgbToHsv) inGreenRange (fun q => (q.s : ℚ))
  have hml : (detectVegetation image).length = image.length := by
    simp [detectVegetation]
  have hcount : (detectVegetation image).count true = vegCount image := rfl
  have hlen := vegSaturations_length image
  have hne : ¬ (vegSaturations image).length = 0 := by omega
  have hv0 : ¬ vegCount image = 0 := by omega
  have hA : (analyzePlantHealth image).vegetation_coverage =
      100 * ((vegCount image : ℚ) / (image.length : ℚ)) := by
    simp only [analyzePlantHealth, hml, hcount]
    ring
  have hB : (analyzePlantHealth image).average_saturation =
      some ((vegSaturations image).sum / (vegCount image : ℚ)) := by
    simp only [analyzePlantHealth, hsats, hlen, hv0, if_false]
  have hC : (analyzePlantHealth image).health_score =
      some (100 * (0.6 * ((analyzePlantHealth image).vegetation_coverage / 100) +
        0.4 * (((vegSaturations image).sum / (vegCount image : ℚ)) / 255))) := by
    simp only [analyzePlantHealth, hsats, hlen, hv0, if_false, hml, hcount,
      Option.map_some']
    congr 1
    ring
  exact ⟨hA, hB, hC⟩

/-- Witness for C3: the green-and-black image has a vegetation pixel and
the three formulas hold on it. -/
theorem analyzePlantHealth_formulas_witness :
    0 < vegCount imgGreenBlack ∧
    ((analyzePlantHealth imgGreenBlack).vegetation_coverage =
      100 * ((vegCount imgGreenBlack : ℚ) / (imgGreenBlack.length : ℚ)) ∧
    (analyzePlantHealth imgGreenBlack).average_saturation =
      some ((vegSaturations imgGreenBlack).sum / (vegCount imgGreenBlack : ℚ)) ∧
    (analyzePlantHealth imgGreenBlack).health_score =
      some (100 * (0.6 * ((analyzePlantHealth imgGreenBlack).vegetation_coverage / 100) +
        0.4 * (((vegSaturations imgGreenBlack).sum /
          (vegCount imgGreenBlack : ℚ)) / 255)))) :=
  ⟨by decide, analyzePlantHealth_formulas imgGreenBlack (by decide)⟩

/-- C4: when `min < max`, the four declarative band regions partition the
rationals: every value lies in the region of the band the code assigns
it, and in no other region. -/
theorem evaluateCondition_partition (t : Threshold) (h : t.min < t.max) (v : ℚ) :
    bandRegion t v (evaluateCondition v t) ∧
    ∀ c, bandRegion t v c → c = evaluateCondition v t := by
  constructor
  · unfold evaluateCondition
    split_ifs with h1 h2 h3 <;> simp_all [bandRegion, mul_comm]
  · intro c hc
    unfold evaluateCondition
    cases c <;> simp only [bandRegion] at hc <;> split_ifs with h1 h2 h3 <;>
      first
        | rfl
        | (exfalso; rw [mul_comm] at hc; push_neg at hc; try rw [mul_comm] at h3
           rcases hc with ⟨hca, hcb, hcc⟩; linarith)
        | (exfalso; rw [mul_comm 0.1] at hc; linarith [hc.1, hc.2.1, hc.2.2])
        | (exfalso; linarith)

/-- Witness for C4: the moisture thresholds satisfy `min < max` and the
partition holds there at value 5. -/
theorem evaluateCondition_partition_witness :
    (thresholds Param.moisture).min < (thresholds Param.moisture).max ∧
    (bandRegion (thresholds Param.moisture) 5
        (evaluateCondition 5 (thresholds Param.moisture)) ∧
      ∀ c, bandRegion (thresholds Param.moisture) 5 c →
        c = evaluateCondition 5 (thresholds Param.moisture)) :=
  ⟨by norm_num [thresholds],
   evaluateCondition_partition (thresholds Param.moisture) (by norm_num [thresholds]) 5⟩

/-- C5: on a reading that lacks the `moisture` parameter the code does
not fail: `_analyze_reading` iterates over the keys the reading actually
has, so it silently returns a `SoilAnalysis` with five conditions and no
recommendation, instead of raising a `MissingParameterError`. -/
theorem analyzeReading_missingMoisture :
    analyzeReading readingMissingMoisture =
      ⟨"2024-01-01T00:00:00",
       [(.ph, .optimal), (.nitrogen, .optimal), (.phosphorus, .optimal),
        (.potassium, .optimal), (.temperature, .optimal)], []⟩ := by
  norm_num [analyzeReading, analyzeReadingWith, analyzeStep, readingMissingMoisture,
    evaluateCondition, thresholds, generateRecommendation, recommendationAction, Ne]

/-- C6: the vegetation mask has one entry per pixel, and a pixel with
valid 8-bit channels is classified as vegetation exactly when its HSV
reinterpretation has hue in the 35..85 window (OpenCV half-degree units,
the [35°,85°]-equivalent range) and saturation and value at or above the
low threshold 30; the upper `inRange` bounds of 255 are vacuous. -/
theorem detectVegetation_pixel (image : Image)
    (hvalid : ∀ p ∈ image, p.r ≤ 255 ∧ p.g ≤ 255 ∧ p.b ≤ 255)
    (i : ℕ) (p : RGB) (hp : image[i]? = some p) :
    (detectVegetation image).length = image.length ∧
    ((detectVegetation image)[i]? = some true ↔
      (35 ≤ (rgbToHsv p).h ∧ (rgbToHsv p).h ≤ 85 ∧
        30 ≤ (rgbToHsv p).s ∧ 30 ≤ (rgbToHsv p).v)) := by
  constructor
  · simp [detectVegetation]
  · have hmem : p ∈ image := by
      obtain ⟨hlt, hget⟩ := List.getElem?_eq_some_iff.mp hp
      exact hget ▸ List.getElem_mem hlt
    obtain ⟨hr255, hg255, hb255⟩ := hvalid p hmem
    have hmask : (detectVegetation image)[i]? = some (inGreenRange (rgbToHsv p)) := by
      simp [detectVegetation, List.getElem?_map, hp]
    rw [hmask, Option.some_inj]
    exact inGreenRange_iff (rgbToHsv p) (rgbToHsv_s_le p)
      (rgbToHsv_v_le p hr255 hg255 hb255)

/-- Witness for C6: the green-and-black image is a valid 8-bit image and
the mask characterization holds at its first pixel. -/
theorem detectVegetation_pixel_witness :
    (∀ p ∈ imgGreenBlack, p.r ≤ 255 ∧ p.g ≤ 255 ∧ p.b ≤ 255) ∧
    imgGreenBlack[0]? = some greenPixel ∧
    ((detectVegetation imgGreenBlack).length = imgGreenBlack.length ∧
      ((detectVegetation imgGreenBlack)[0]? = some true ↔
        (35 ≤ (rgbToHsv greenPixel).h ∧ (rgbToHsv greenPixel).h ≤ 85 ∧
          30 ≤ (rgbToHsv greenPixel).s ∧ 30 ≤ (rgbToHsv greenPixel).v))) :=
  ⟨by decide, by decide,
   detectVegetation_pixel imgGreenBlack (by decide) 0 greenPixel (by decide)⟩

/-- C7: on the reading with moisture 5 and the other five parameters at
their optimal points, moisture is classified `low`, the others `optimal`,
and exactly one recommendation is produced, for moisture, with the
predefined irrigation-increase action text. -/
theorem analyzeReading_lowMoisture :
    analyzeReading (completeReading "2024-01-01T00:00:00" 5 6.5 60 45 50 25) =
      ⟨"2024-01-01T00:00:00",
       [(.moisture, .low), (.ph, .optimal), (.nitrogen, .optimal),
        (.phosphorus, .optimal), (.potassium, .optimal), (.temperature, .optimal)],
       [⟨.moisture, 5, .low, "Increase irrigation frequency"⟩]⟩ :=
  lowMoisture_eval

/-- C8: the health score is monotone in coverage at fixed saturation:
whenever two scoring results carry the same average saturation and both
scores are defined, the result with the smaller coverage has the smaller
or equal score. -/
theorem healthScore_monotone (img1 img2 : Image) (h1 h2 : ℚ)
    (hsat : (analyzePlantHealth img1).average_saturation =
      (analyzePlantHealth img2).average_saturation)
    (hcov : (analyzePlantHealth img1).vegetation_coverage ≤
      (analyzePlantHealth img2).vegetation_coverage)
    (hs1 : (analyzePlantHealth img1).health_score = some h1)
    (hs2 : (analyzePlantHealth img2).health_score = some h2) :
    h1 ≤ h2 := by
  rw [healthScore_eq] at hs1 hs2
  cases ha1 : (analyzePlantHealth img1).average_saturation with
  | none =>
    rw [ha1] at hs1
    simp at hs1
  | some a =>
    rw [ha1] at hs1 hsat
    rw [← hsat] at hs2
    simp only [Option.map_some', Option.some_inj] at hs1 hs2
    rw [← hs1, ← hs2]
    nlinarith [hcov]

/-- Witness for C8: green-and-black versus all-green images have equal
average saturation, coverage 50 versus 100, and scores 70 and 100. -/
theorem healthScore_monotone_witness :
    (analyzePlantHealth imgGreenBlack).average_saturation =
      (analyzePlantHealth imgGreenGreen).average_saturation ∧
    (analyzePlantHealth imgGreenBlack).vegetation_coverage ≤
      (analyzePlantHealth imgGreenGreen).vegetation_coverage ∧
    (analyzePlantHealth imgGreenBlack).health_score = some 70 ∧
    (analyzePlantHealth imgGreenGreen).health_score = some 100 ∧
    (70 : ℚ) ≤ 100 :=
  ⟨by rw [greenBlack_eval, greenGreen_eval],
   by rw [greenBlack_eval, greenGreen_eval]; norm_num,
   by rw [greenBlack_eval],
   by rw [greenGreen_eval],
   healthScore_monotone imgGreenBlack imgGreenGreen 70 100
     (by rw [greenBlack_eval, greenGreen_eval])
     (by rw [greenBlack_eval, greenGreen_eval]; norm_num)
     (by rw [greenBlack_eval]) (by rw [greenGreen_eval])⟩

/-- C9: evaluation is deterministic and free of hidden state drift: a
second call on the same reading, made from the state the first call left
behind, returns a structurally identical analysis, including the
conditions mapping and the recommendation sequence. -/
theorem evaluateCall_deterministic (s : AnalyzerState) (r : Reading) :
    (evaluateCall ((evaluateCall s r).2) r).1 = (evaluateCall s r).1 ∧
    ((evaluateCall ((evaluateCall s r).2) r).1).conditions =
      ((evaluateCall s r).1).conditions ∧
    ((evaluateCall ((evaluateCall s r).2) r).1).recommendations =
      ((evaluateCall s r).1).recommendations :=
  ⟨rfl, rfl, rfl⟩

/-- C10: for every complete reading, each recorded condition entry has
exactly one recommendation when its band is not optimal and none when it
is, and every recommendation's condition field matches the recorded band
of its parameter while its current-value field matches the input value of
that parameter. -/
theorem analyzeReading_rec_invariant (ts : String) (m ph n phos k temp : ℚ) :
    (∀ pc ∈ (analyzeReading (completeReading ts m ph n phos k temp)).conditions,
      (analyzeReading (completeReading ts m ph n phos k temp)).recommendations.countP
          (fun rec => decide (rec.parameter = pc.1)) =
        if pc.2 = Condition.optimal then 0 else 1) ∧
    (∀ rec ∈ (analyzeReading (completeReading ts m ph n phos k temp)).recommendations,
      (rec.parameter, rec.condition) ∈
          (analyzeReading (completeReading ts m ph n phos k temp)).conditions ∧
      (rec.parameter, rec.current_value) ∈
          (completeReading ts m ph n phos k temp).params) := by
  have hnd : ((completeReading ts m ph n phos k temp).params.map Prod.fst).Nodup := by
    simp [completeReading]
  constructor
  · intro pc hpc
    rw [analyzeReading, analyzeReadingWith_conditions] at hpc
    obtain ⟨pv, hpv, hcond⟩ := List.mem_map.mp hpc
    rw [analyzeReading, analyzeReadingWith_recommendations]
    have := countP_filterMap_recOf thresholds
      (completeReading ts m ph n phos k temp).params pv hnd hpv
    rw [← hcond]
    simpa [condOf] using this
  · intro rec hrec
    rw [analyzeReading, analyzeReadingWith_recommendations] at hrec
    obtain ⟨pv, hpv, hr⟩ := List.mem_filterMap.mp hrec
    obtain ⟨hp, hv, hc⟩ := recOf_eq_some hr
    constructor
    · rw [analyzeReading, analyzeReadingWith_conditions, hp, hc]
      exact List.mem_map_of_mem (condOf thresholds) hpv
    · rw [hp, hv]
      exact hpv

/-- Witness for C10: on the low-moisture reading the moisture entry is
non-optimal and carries exactly one recommendation, whose current value
is the input moisture value. -/
theorem analyzeReading_rec_invariant_witness :
    ((analyzeReading (completeReading "2024-01-01T00:00:00" 5 6.5 60 45 50 25)).recommendations.countP
        (fun rec => decide (rec.parameter = Param.moisture)) = 1) ∧
    ((Param.moisture, 5) ∈
      (completeReading "2024-01-01T00:00:00" 5 6.5 60 45 50 25).params) := by
  constructor
  · have h := (analyzeReading_rec_invariant "2024-01-01T00:00:00" 5 6.5 60 45 50 25).1
      (Param.moisture, Condition.low) (by rw [lowMoisture_eval]; simp)
    simpa using h
  · have h := (analyzeReading_rec_invariant "2024-01-01T00:00:00" 5 6.5 60 45 50 25).2
      ⟨.moisture, 5, .low, "Increase irrigation frequency"⟩
      (by rw [lowMoisture_eval]; simp)
    exact h.2

end AgriRobot
